import Mathlib

/-!
Shallow embedding of the commute-impact computation core of
`relocation_impact_analyzer` (files `analyzer.py`, `g_api.py`, `graphing.py`).

Conventions of the embedding:
* Python floats are modelled as rationals (`ℚ`); all the arithmetic the
  verified claims touch is exact in the source (products, quotients,
  comparisons), so `ℚ` is a faithful carrier.
* A Python function that can raise on the modelled inputs returns `Option`
  (`none` = the call raises); functions total on the modelled inputs stay
  plain.
* Filesystem presence checks are modelled as booleans of an explicit
  artifact-inventory state.
* `pandas` column arithmetic over per-employee rows is modelled as `List`
  operations in employee order.
-/

namespace RelocationImpact

/-! ### Project configuration (`project.py` scalar attributes) -/

/-- The scalar configuration attributes of `Project` that the analyzer
reads (`self.project.…` in `analyzer.py`). -/
structure ProjectCfg where
  mileage_rate : ℚ
  CO2_per_mile : ℚ
  traffic_regime_2 : ℚ
  traffic_regime_3 : ℚ
  traffic_regime_1_coeff : ℚ
  traffic_regime_2_coeff : ℚ
  traffic_regime_3_coeff : ℚ
  commute_days_per_week : ℕ
  commute_weeks_per_year : ℕ
  median_salary : ℚ
  hours_per_year : ℚ
  CO2_credit_cost : ℚ
  turnover_threshold_due_to_cost : ℚ
  turnover_probability_time_cost : ℚ
  employee_replacement_cost : ℚ
  commute_range_cut_off : ℚ
  use_gps_fuzzing : Bool
  deriving Repr, DecidableEq

/-! ### `Analyzer.get_traffic_regime` (analyzer.py:792-816)

```
average_speed = distance / (duration_in_traffic/60)
if average_speed < self.project.traffic_regime_2: return 1
if average_speed < self.project.traffic_regime_3: return 2
return 3
```
When `duration_in_traffic = 0` the Python division raises
`ZeroDivisionError`; that raising outcome is modelled as `none`. -/

def get_traffic_regime (traffic_regime_2 traffic_regime_3 : ℚ)
    (distance duration_in_traffic : ℚ) : Option ℕ :=
  if duration_in_traffic = 0 then
    none
  else
    let average_speed := distance / (duration_in_traffic / 60)
    if average_speed < traffic_regime_2 then some 1
    else if average_speed < traffic_regime_3 then some 2
    else some 3

/-- Method `Analyzer.get_traffic_emissions_factor` (analyzer.py:818-839): lookup of
the per-regime emissions coefficient, defaulting to `1.0`. -/
def get_traffic_emissions_factor (cfg : ProjectCfg) (regime : ℕ) : ℚ :=
  if regime = 1 then cfg.traffic_regime_1_coeff
  else if regime = 2 then cfg.traffic_regime_2_coeff
  else if regime = 3 then cfg.traffic_regime_3_coeff
  else 1

/-! ### `g_api.py` recoverability map and `Analyzer.handle_GAPI_exception` -/

/-- The dictionary `GAPI.google_api_exceptions` (g_api.py:50-59), mapping an
exception class name to `'recoverable'` / `'non-recoverable'`. -/
def google_api_exceptions : List (String × String) :=
  [("ApiError", "non-recoverable"),
   ("TransportError", "recoverable"),
   ("HttpError", "recoverable"),
   ("Timeout", "recoverable"),
   ("_RetriableRequest", "recoverable"),
   ("_OverQueryLimit", "recoverable"),
   ("EmptyResult", "recoverable")]

/-- Method `Analyzer.handle_GAPI_exception` (analyzer.py:841-867): looks the
exception's class name up in `google_api_exceptions`; a `'recoverable'`
entry yields `True`, any other entry and any unknown name yields `False`. -/
def handle_GAPI_exception (exception_type : String) : Bool :=
  match (google_api_exceptions.filter (fun p => p.1 == exception_type)).head? with
  | some p => p.2 == "recoverable"
  | none => false

/-! ### `Analyzer.update_analysis_phase` (analyzer.py:243-291) -/

/-- The artifact inventory the phase computation inspects: membership of the
named files in `self.project.list_data_files()`, the GPS-fuzzing flag, and
the `plots/graphs.json` and `tables/tables.json` manifests. -/
structure ProjState where
  /-- Field modelling `self.project is None` as `project_exists = false`. -/
  project_exists : Bool
  employee_addresses_csv : Bool
  office_addresses_csv : Bool
  employee_gps_csv : Bool
  office_gps_csv : Bool
  gps_fuzz_csv : Bool
  commute_data_csv : Bool
  /-- Flag `self.project.use_gps_fuzzing` (False / "False" collapse to `false`). -/
  use_gps_fuzzing : Bool
  /-- Whether the `plots` dir exists and contains `graphs.json`. -/
  graphs_manifest : Bool
  /-- Whether the `tables` dir exists and contains `tables.json`. -/
  tables_manifest : Bool
  deriving Repr, DecidableEq

/-- Method `Analyzer.update_analysis_phase`, translated branch for branch.  The
Python function has no final `else`: when an `employee_addresses.csv` is
present but `office_addresses.csv` is not, control falls off the end and
the function returns `None`; that outcome is `none` here.  The phase-7
branch (tables manifest present) deliberately collapses to 6 in the
source. -/
def update_analysis_phase (s : ProjState) : Option ℕ :=
  if s.project_exists = false then some 0
  else if s.employee_addresses_csv = false then some 1
  else if s.employee_addresses_csv && s.office_addresses_csv then
    if s.employee_gps_csv && s.office_gps_csv then
      if s.gps_fuzz_csv || !s.use_gps_fuzzing then
        if s.commute_data_csv then
          if s.graphs_manifest then
            if s.tables_manifest then
              -- the phase-7 assignment is commented out in the source
              some 6
            else some 6
          else some 5
        else some 4
      else some 3
    else some 2
  else none

/-! ### The retry control flow of `Analyzer.get_commute_data`
(analyzer.py:589-618) -/

/-- Exceptions arising in the commute-fetch control flow: an exception
thrown by the provider call (carrying its Python class name), or Python's
own `TypeError`. -/
inductive PyExc where
  | gapi (className : String)
  | typeError
  deriving Repr, DecidableEq

/-- Python's `exception.__class__.__name__` for the modelled exceptions. -/
def pyExcName : PyExc → String
  | .gapi n => n
  | .typeError => "TypeError"

/-- The free-text response of `self.gAPI.commute` (a directions row):
`distance`, `duration` and `duration_in_traffic` strings. -/
structure CommuteResp where
  distance : List Char
  duration : List Char
  duration_in_traffic : List Char
  deriving Repr, DecidableEq

/-- Python semantics of the sub-expression `destination(0)` appearing in
the retry call of `get_commute_data` (analyzer.py:605): `destination` is
bound to a 2-tuple of coordinates, and none of the value forms in this
fragment (tuples of numbers) are callable, so evaluating the call raises
`TypeError` — before any enclosing call can be issued. -/
def tuple_call (_t : ℚ × ℚ) (_arg : ℚ) : Except PyExc ℚ :=
  .error .typeError

/-- The per-slot fetch of `get_commute_data` (analyzer.py:591-618), with
the calls to `self.gAPI.commute` abstracted into `provider` (`provider n`
is the outcome the provider would give to the `(n+1)`-st call issued for
this slot).  The value returned pairs the slot outcome with the number of
provider calls actually issued.  On a first-call exception the source
classifies it via `handle_GAPI_exception`; in the recoverable branch it
sleeps and re-issues the call written as
`self.gAPI.commute((source[0],source[1]),(destination(0),destination[1]),…)`:
evaluating the argument `destination(0)` (see `tuple_call`) raises inside
the retry `try:` block, whose handler re-raises, so the provider is never
actually called a second time.  In the non-recoverable branch the original
exception is re-raised at once. -/
def commute_slot_fetch (provider : ℕ → Except PyExc CommuteResp)
    (destination : ℚ × ℚ) : Except PyExc CommuteResp × ℕ :=
  match provider 0 with
  | .ok commute => (.ok commute, 1)
  | .error e =>
    if handle_GAPI_exception (pyExcName e) then
      -- `sleep(10000)`, then the retry attempt
      match tuple_call destination 0 with
      | .error e2 => (.error e2, 1)
      | .ok _ =>
        match provider 1 with
        | .ok commute => (.ok commute, 2)
        | .error e2 => (.error e2, 2)
    else
      (.error e, 1)

/-! ### Rate limiting: `Analyzer.__init__` (analyzer.py:53-57) and
`Analyzer.sleepif` (analyzer.py:121-134) -/

/-- Constructor constant `self.api_rate_limit = 300`. -/
def api_rate_limit : ℚ := 300

/-- Constructor constant `self.sleep_time = 60 / self.api_rate_limit`. -/
def init_sleep_time : ℚ := 60 / api_rate_limit

/-- Constructor initialisation
`self.last_call = datetime.now() - timedelta(seconds=self.sleep_time)`,
with construction time taken as time 0.  No other statement of the source
ever assigns `self.last_call`. -/
def init_last_call : ℚ := 0 - init_sleep_time

/-- The `.seconds` attribute of a Python `timedelta`: for the nonnegative,
sub-day deltas arising here it is the whole number of seconds, i.e. the
floor of the delta expressed in seconds. -/
def timedelta_seconds (delta : ℚ) : ℤ := ⌊delta⌋

/-- Time spent inside one `sleepif()` call when invoked at time `now`:
`if (now - last_call).seconds < sleep_time: sleep(sleep_time - (now - last_call).seconds)`. -/
def sleepif_delay (sleep_time last_call now : ℚ) : ℚ :=
  if (timedelta_seconds (now - last_call) : ℚ) < sleep_time then
    sleep_time - (timedelta_seconds (now - last_call) : ℚ)
  else 0

/-- The timing of a batch of provider calls in `get_commute_data`'s loop:
each iteration runs `self.sleepif()` and then the external call.  `durs`
lists the provider latency of each call; the result lists each call's
(start, end) times.  `last_call` is threaded through unchanged because no
statement of the source updates it after the constructor. -/
def run_calls (sleep_time last_call : ℚ) : ℚ → List ℚ → List (ℚ × ℚ)
  | _, [] => []
  | now, d :: ds =>
    let start := now + sleepif_delay sleep_time last_call now
    (start, start + d) :: run_calls sleep_time last_call (start + d) ds

/-! ### `Analyzer.convert_stringtime_to_minutes` (analyzer.py:639-673)

The source scans the input with
`re.findall(r'(\d+)\s*(hour|minute|second|min|sec|hrs|hours|minutes|mins|seconds)s?', time_string, re.IGNORECASE)`
and then folds the `(amount, unit)` capture pairs into a
`{'hours','minutes','seconds'}` dictionary, returning `hours*60 + minutes`.
The scan is embedded below.  Its regex backtracking collapses to a
deterministic scan: `\d+` keeps its maximal run (no alternative of the unit
group begins with a digit or whitespace), `\s*` keeps its maximal run (no
alternative begins with whitespace), the first alternative that matches
wins (nothing follows the optional `s`), and `s?` greedily takes an `s`/`S`
when present.  Inputs are modelled as ASCII character lists. -/

/-- Python `\d` on the ASCII inputs at hand. -/
def pyIsDigit (c : Char) : Bool := c.isDigit

/-- Python `\s` on the ASCII range: space, tab, newline, carriage return,
vertical tab, form feed. -/
def pyIsSpace (c : Char) : Bool :=
  c == ' ' || c == '\t' || c == '\n' || c == '\r' ||
  c == Char.ofNat 11 || c == Char.ofNat 12

/-- The alternatives of the unit capture group, in source order:
`hour|minute|second|min|sec|hrs|hours|minutes|mins|seconds`. -/
def time_unit_alternatives : List (List Char) :=
  ["hour".data, "minute".data, "second".data, "min".data, "sec".data,
   "hrs".data, "hours".data, "minutes".data, "mins".data, "seconds".data]

/-- Case-insensitive match (the regex is compiled with `re.IGNORECASE`) of
the first alternative of `alts` that occurs at the head of `cs`; returns
the matched characters in their original spelling, and the remainder. -/
def matchUnitAlt : List (List Char) → List Char → Option (List Char × List Char)
  | [], _ => none
  | alt :: alts, cs =>
    if alt.length ≤ cs.length &&
        ((cs.take alt.length).zip alt).all (fun p => p.1.toLower == p.2) then
      some (cs.take alt.length, cs.drop alt.length)
    else matchUnitAlt alts cs

/-- One attempted match of `(\d+)\s*(unit)s?` anchored at the head of `cs`;
returns the two capture groups and the rest of the input after the match. -/
def matchTimeToken (cs : List Char) :
    Option ((List Char × List Char) × List Char) :=
  let digits := cs.takeWhile pyIsDigit
  if digits.isEmpty then none
  else
    let afterSpace := (cs.dropWhile pyIsDigit).dropWhile pyIsSpace
    match matchUnitAlt time_unit_alternatives afterSpace with
    | none => none
    | some (unit, rest) =>
      match rest with
      | [] => some ((digits, unit), [])
      | c :: rest2 =>
        if c == 's' || c == 'S' then some ((digits, unit), rest2)
        else some ((digits, unit), rest)

/-- The `re.findall` scan: leftmost, non-overlapping matches, advancing one
character on failure.  Fuel-indexed; every step consumes at least one input
character, so fuel equal to the input length suffices. -/
def findTimeTokensAux : ℕ → List Char → List (List Char × List Char)
  | 0, _ => []
  | _ + 1, [] => []
  | fuel + 1, c :: cs =>
    match matchTimeToken (c :: cs) with
    | some (tok, rest) => tok :: findTimeTokensAux fuel rest
    | none => findTimeTokensAux fuel cs

/-- All `(amount, unit)` capture pairs of the duration regex over `s`. -/
def findTimeTokens (s : List Char) : List (List Char × List Char) :=
  findTimeTokensAux s.length s

/-- Python `int()` on a nonempty all-digit capture group. -/
def pyInt (digits : List Char) : ℕ :=
  digits.foldl (fun n c => 10 * n + (c.toNat - '0'.toNat)) 0

/-- The `time_values` dictionary of the source. -/
structure TimeValues where
  hours : ℕ
  minutes : ℕ
  seconds : ℕ
  deriving Repr, DecidableEq

/-- Case-sensitive `unit.startswith(pat)` (Python `str.startswith`). -/
def strBegins : List Char → List Char → Bool
  | _, [] => true
  | [], _ :: _ => false
  | c :: cs, p :: ps => c == p && strBegins cs ps

/-- The body of the classification loop (analyzer.py:660-666).  Note that
the membership tests are case-sensitive (`unit.startswith('hour')`,
`unit == 'hrs'`, …) although the scan itself was case-insensitive; a pair
whose unit matches no branch falls through and updates nothing. -/
def time_values_step (tv : TimeValues) (tok : List Char × List Char) :
    TimeValues :=
  if strBegins tok.2 "hour".data || tok.2 == "hrs".data then
    { tv with hours := tv.hours + pyInt tok.1 }
  else if strBegins tok.2 "min".data then
    { tv with minutes := tv.minutes + pyInt tok.1 }
  else if strBegins tok.2 "sec".data then
    { tv with seconds := tv.seconds + pyInt tok.1 }
  else tv

/-- Method `Analyzer.convert_stringtime_to_minutes`: fold the capture pairs
into `time_values`, then return `hours*60 + minutes` (seconds are summed
into the dictionary but never added to the total). -/
def convert_stringtime_to_minutes (time_string : List Char) : ℕ :=
  let tv := (findTimeTokens time_string).foldl time_values_step ⟨0, 0, 0⟩
  tv.hours * 60 + tv.minutes

/-- The guard of the hour branch of the classification loop. -/
def isHourTok (t : List Char × List Char) : Bool :=
  strBegins t.2 "hour".data || t.2 == "hrs".data

/-- The guard of the minute branch (reached only past the hour branch). -/
def isMinuteTok (t : List Char × List Char) : Bool :=
  !isHourTok t && strBegins t.2 "min".data

/-! ### Scope filter and commute-cost differential
(`Graphing.filter_drive_distance`, graphing.py:230-264, and the
`eccda` block of `Analyzer.generate_graphs`, analyzer.py:1265-1372) -/

/-- One row of `office_gps.csv` joined with its address. -/
structure Office where
  address : String
  latitude : ℚ
  longitude : ℚ
  deriving Repr, DecidableEq

/-- One row of the employee GPS table. -/
structure Emp where
  latitude : ℚ
  longitude : ℚ
  deriving Repr, DecidableEq

/-- One row of `commute_data.csv`, restricted to the columns the verified
analyses read. -/
structure CommuteRow where
  office_address : String
  origin_lat : ℚ
  origin_long : ℚ
  destination_lat : ℚ
  destination_long : ℚ
  miles : ℚ
  commute_cost : ℚ
  deriving Repr, DecidableEq

/-- Helper `check_d` of `Graphing.filter_drive_distance`
(graphing.py:248-262), in its `inside=True` form: the point is in scope of
some target office when a commute row keyed by these coordinates has
`miles ≤ radius`. -/
def check_d (lat lon : ℚ) (targets : List Office) (radius : ℚ)
    (commute_data : List CommuteRow) : Bool :=
  targets.any fun t =>
    (commute_data.filter fun r =>
        r.origin_lat == lat && r.origin_long == lon &&
        r.destination_lat == t.latitude &&
        r.destination_long == t.longitude).any
      fun r => decide (r.miles ≤ radius)

/-- Method `Graphing.filter_drive_distance` (`inside=True`): the sources
within driving distance `radius` of one of the `targets`. -/
def filter_drive_distance (sources : List Emp) (targets : List Office)
    (radius : ℚ) (commute_data : List CommuteRow) : List Emp :=
  sources.filter fun e =>
    check_d e.latitude e.longitude targets radius commute_data

/-- The `'cost'` column of `base_costs` / `tmp_costs` in the differential
analysis (analyzer.py:1281-1304): `get_base_cost_df` seeds every employee
with cost `0.0`, then the rows of the employees inside the office's
driving-distance filter are overwritten with the `commute_cost` of the
commute row matching `(origin_lat, origin_long, office_address)`.  The
source reads that row with `.values[0]` under the matrix invariant of one
commute row per (employee, office) pair; an in-scope employee always has
one, the scope filter having matched a row with these coordinates. -/
def office_cost_column (emp : List Emp) (office : Office) (radius : ℚ)
    (commute_data : List CommuteRow) : List ℚ :=
  emp.map fun e =>
    if check_d e.latitude e.longitude [office] radius commute_data then
      match commute_data.find? (fun r =>
          r.origin_lat == e.latitude && r.origin_long == e.longitude &&
          r.office_address == office.address) with
      | some r => r.commute_cost
      | none => 0
    else 0

/-- The headline per-employee differential of the `eccda` block
(analyzer.py:1310-1312): `cost_values[i]['cost'] - base_costs['cost']`,
the baseline office being `offices.iloc[0]`. -/
def eccda_headline_diffs (emp : List Emp) (current_office office : Office)
    (radius : ℚ) (commute_data : List CommuteRow) : List ℚ :=
  List.zipWith (fun a b => a - b)
    (office_cost_column emp office radius commute_data)
    (office_cost_column emp current_office radius commute_data)

/-- The "excluding remote-work rotation" variant (analyzer.py:1365-1372):
`mask = (cost_values[i]['cost'] != 0) & (base_costs['cost'] != 0)` and
`differences = (cost_values[i]['cost'] - base_costs['cost'])[mask]` — every
employee whose cost is 0 at either office is dropped entirely. -/
def eccda_excluding_rotation (emp : List Emp) (current_office office : Office)
    (radius : ℚ) (commute_data : List CommuteRow) : List ℚ :=
  (List.zip (office_cost_column emp office radius commute_data)
      (office_cost_column emp current_office radius commute_data)).filterMap
    fun p => if p.1 != 0 && p.2 != 0 then some (p.1 - p.2) else none

/-! ### Attrition risk (`generate_graphs`, analyzer.py:2024-2060) -/

/-- The attrition threshold (analyzer.py:2025-2027):
`threshold = turnover_threshold_due_to_cost * median_salary` and
`daily_threshold = threshold / (commute_days_per_week * commute_weeks_per_year)`. -/
def daily_threshold (cfg : ProjectCfg) : ℚ :=
  cfg.turnover_threshold_due_to_cost * cfg.median_salary /
    ((cfg.commute_days_per_week : ℚ) * (cfg.commute_weeks_per_year : ℚ))

/-- The counting loop (analyzer.py:2047-2057): `above_threshold` starts at 0
and is incremented for every differential strictly above the threshold. -/
def above_threshold_count (diffs : List ℚ) (thr : ℚ) : ℕ :=
  diffs.foldl (fun acc d => if thr < d then acc + 1 else acc) 0

/-- Expected attrition cost (analyzer.py:2060): `cost_impact =
above_threshold * turnover_probability_time_cost * employee_replacement_cost`. -/
def attrition_cost_impact (cfg : ProjectCfg) (above_threshold : ℕ) : ℚ :=
  (above_threshold : ℚ) * cfg.turnover_probability_time_cost *
    cfg.employee_replacement_cost

/-! ### Emissions annotation (`Analyzer.get_commute_emissions`,
analyzer.py:777-789) -/

/-- One commute record as `get_commute_emissions` sees it: the `miles`
column, the ten per-slot `{day}_{time}_duration_in_traffic` columns in
source order (`m_morning, m_evening, …, f_evening`), and the emissions
columns being (re)computed. -/
structure CommuteRec where
  miles : ℚ
  durations_in_traffic : List ℚ
  emissions : ℚ
  slot_emissions : List (Option ℚ)
  deriving Repr, DecidableEq

/-- One slot of the emissions loop (analyzer.py:782-786):
`miles * CO2_per_mile * get_traffic_emissions_factor(get_traffic_regime(miles, duration))`;
`none` when the regime classification raises on a zero duration. -/
def slot_emission (cfg : ProjectCfg) (miles duration : ℚ) : Option ℚ :=
  (get_traffic_regime cfg.traffic_regime_2 cfg.traffic_regime_3 miles
      duration).map
    fun regime =>
      miles * cfg.CO2_per_mile * get_traffic_emissions_factor cfg regime

/-- Method `Analyzer.get_commute_emissions` on one record: the base
`emissions` column becomes `miles * CO2_per_mile` and each slot's
emissions column is filled from its duration by `slot_emission`. -/
def get_commute_emissions (cfg : ProjectCfg) (r : CommuteRec) : CommuteRec :=
  { r with
    emissions := r.miles * cfg.CO2_per_mile
    slot_emissions := r.durations_in_traffic.map (slot_emission cfg r.miles) }

/-! ### Concrete inputs used by the end-to-end scenarios -/

/-- A project configuration carrying the spec's end-to-end scenario
parameters: regime thresholds 33.554 / 55.923 mph, Congested coefficient
0.7, 0.404 kg CO2 per mile, turnover threshold 3 % of a median salary of
114068, 2 commute days per week, 50 commute weeks per year. -/
def cfg0 : ProjectCfg where
  mileage_rate := 67/100
  CO2_per_mile := 404/1000
  traffic_regime_2 := 33554/1000
  traffic_regime_3 := 55923/1000
  traffic_regime_1_coeff := 7/10
  traffic_regime_2_coeff := 85/100
  traffic_regime_3_coeff := 1
  commute_days_per_week := 2
  commute_weeks_per_year := 50
  median_salary := 114068
  hours_per_year := 2080
  CO2_credit_cost := 51
  turnover_threshold_due_to_cost := 3/100
  turnover_probability_time_cost := 1/5
  employee_replacement_cost := 50000
  commute_range_cut_off := 50
  use_gps_fuzzing := false

/-- A commute record with populated `miles = 20` and all ten slot
durations equal to 40 minutes, emissions columns still at the `-1`
sentinel. -/
def rec0 : CommuteRec where
  miles := 20
  durations_in_traffic := List.replicate 10 40
  emissions := -1
  slot_emissions := List.replicate 10 none

/-- Baseline office A of end-to-end scenario 3. -/
def offA : Office := ⟨"A", 1, 2⟩

/-- Alternative office B of end-to-end scenario 3. -/
def offB : Office := ⟨"B", 3, 4⟩

/-- The single employee of end-to-end scenario 3. -/
def emp1 : Emp := ⟨10, 20⟩

/-- Commute matrix of end-to-end scenario 3: the employee is 5 driving
miles from office A at a daily cost of 10, and 100 driving miles from
office B (outside the 50-mile cutoff) at the matrix cost 67. -/
def cd4 : List CommuteRow :=
  [⟨"A", 10, 20, 1, 2, 5, 10⟩,
   ⟨"B", 10, 20, 3, 4, 100, 67⟩]

/-- A provider whose every call raises `Timeout` (classified recoverable
by `google_api_exceptions`). -/
def timeout_provider : ℕ → Except PyExc CommuteResp :=
  fun _ => .error (.gapi "Timeout")

/-- A provider whose every call raises `ApiError` (classified
non-recoverable by `google_api_exceptions`). -/
def api_error_provider : ℕ → Except PyExc CommuteResp :=
  fun _ => .error (.gapi "ApiError")

/-- The project state with a project, an `employee_addresses.csv`, and no
`office_addresses.csv` (all other artifacts absent). -/
def state_no_office_csv : ProjState :=
  ⟨true, true, false, false, false, false, false, false, false, false⟩

/-- The spec's phase table (AnalysisPhase, spec §4.6) as amended by the
fall-through counterexample: the case of an existing project with employee
addresses but no office-addresses file yields no phase at all; every other
case follows the spec's table, with the tables manifest irrelevant (phase
7 collapses to 6). -/
def analysis_phase_table (s : ProjState) : Option ℕ :=
  if !s.project_exists then some 0
  else if !s.employee_addresses_csv then some 1
  else if !s.office_addresses_csv then none
  else if !(s.employee_gps_csv && s.office_gps_csv) then some 2
  else if s.use_gps_fuzzing && !s.gps_fuzz_csv then some 3
  else if !s.commute_data_csv then some 4
  else if !s.graphs_manifest then some 5
  else some 6

/-! ## Theorems -/

/-- C1 (code bug): the `Timeout` exception is classified recoverable, yet
the retry attempt never re-queries the provider — evaluating
`destination(0)` raises `TypeError` first, so in total exactly one
provider call is issued and the propagated error is that `TypeError`, not
the outcome of a retried query as the claim states.  A non-recoverable
`ApiError` propagates at once, also after a single call. -/
theorem commute_retry_never_requeries :
    handle_GAPI_exception "Timeout" = true ∧
    commute_slot_fetch timeout_provider (39, -77) = (.error .typeError, 1) ∧
    commute_slot_fetch api_error_provider (39, -77)
      = (.error (.gapi "ApiError"), 1) :=
  ⟨rfl, rfl, rfl⟩

/-- C2 counterexample: with a project, an employee-addresses file and no
office-addresses file, `update_analysis_phase` returns no integer at all
(the Python function falls off the end and returns `None`), refuting the
claim that every project state yields an integer 0–6. -/
theorem update_analysis_phase_no_office_counterexample :
    update_analysis_phase state_no_office_csv = none := rfl

/-- C2 (amended): `update_analysis_phase` equals the deterministic phase
table over artifact presence — 0 without a project, 1 without employee
addresses, no phase at all when employee addresses are present but office
addresses are not, 2 before GPS, 3 while fuzzing is unresolved, 4 before
commute data, 5 before the graphs manifest, 6 once it exists (the tables
manifest is irrelevant: phase 7 collapses back to 6). -/
theorem update_analysis_phase_eq_table
    (a b c d e f g h i j : Bool) :
    update_analysis_phase ⟨a, b, c, d, e, f, g, h, i, j⟩
      = analysis_phase_table ⟨a, b, c, d, e, f, g, h, i, j⟩ := by
  revert a b c d e f g h i j
  decide

/-- C3 counterexample: at distance 20 with the scenario thresholds, a zero
`duration_in_traffic` does not yield Congested (regime 1): the call raises
`ZeroDivisionError` (modelled as `none`). -/
theorem get_traffic_regime_zero_duration_counterexample :
    get_traffic_regime (33554/1000) (55923/1000) 20 0 ≠ some 1 := by
  decide

/-- C3 (amended): a zero `duration_in_traffic` is not guarded — for every
distance and thresholds the classification divides by zero and raises
`ZeroDivisionError` instead of returning a regime. -/
theorem get_traffic_regime_zero_duration_raises
    (traffic_regime_2 traffic_regime_3 distance : ℚ) :
    get_traffic_regime traffic_regime_2 traffic_regime_3 distance 0
      = none := by
  simp [get_traffic_regime]

/-- C4: an employee outside an office's driving-distance scope filter gets
cost 0 (not missing) in that office's cost column; in scenario 3 (cost 10
at baseline A, out of scope at B) the headline differential is
0 − 10 = −10 while the "excluding remote-work rotation" variant drops the
employee entirely. -/
theorem differential_scope_zero_and_rotation :
    (∀ (e : Emp) (office : Office) (radius : ℚ) (cd : List CommuteRow),
      check_d e.latitude e.longitude [office] radius cd = false →
      office_cost_column [e] office radius cd = [0]) ∧
    eccda_headline_diffs [emp1] offA offB 50 cd4 = [-10] ∧
    eccda_excluding_rotation [emp1] offA offB 50 cd4 = [] := by
  refine ⟨?_, ?_, ?_⟩
  · intro e office radius cd h
    simp [office_cost_column, h]
  · norm_num [eccda_headline_diffs, office_cost_column, check_d, cd4, emp1,
      offA, offB]
  · norm_num [eccda_excluding_rotation, office_cost_column, check_d, cd4,
      emp1, offA, offB]

/-- C4 witness: the scenario employee is out of office B's scope, so B's
cost column carries 0 for them. -/
theorem differential_scope_zero_witness :
    office_cost_column [emp1] offB 50 cd4 = [0] :=
  differential_scope_zero_and_rotation.1 emp1 offB 50 cd4 (by decide)

/-- Helper: the counting loop of the attrition analysis equals the length
of the filtered list, for any accumulator. -/
theorem foldl_count_eq (thr : ℚ) (diffs : List ℚ) (acc : ℕ) :
    diffs.foldl (fun a d => if thr < d then a + 1 else a) acc
      = acc + (diffs.filter fun d => decide (thr < d)).length := by
  induction diffs generalizing acc with
  | nil => simp
  | cons d ds ih =>
    by_cases h : thr < d
    · simp [List.filter, h, ih, Nat.add_assoc, Nat.add_comm 1]
    · simp [List.filter, h, ih]

/-- C5: the attrition analysis counts exactly the employees whose daily
cost delta strictly exceeds `daily_threshold`; with turnover threshold
0.03, median salary 114068, 2 commute days per week and 50 weeks per year
the threshold is 34.2204, an employee at 35 or 40 counts while one at 30
or exactly at the threshold does not, and the expected attrition cost is
count × turnover probability × replacement cost (here 2 × 0.2 × 50000). -/
theorem attrition_risk_threshold_and_count :
    (∀ (diffs : List ℚ) (thr : ℚ),
      above_threshold_count diffs thr
        = (diffs.filter fun d => decide (thr < d)).length) ∧
    daily_threshold cfg0 = 34.2204 ∧
    above_threshold_count [35, 34.2204, 30, 40] (daily_threshold cfg0) = 2 ∧
    attrition_cost_impact cfg0
        (above_threshold_count [35, 34.2204, 30, 40] (daily_threshold cfg0))
      = 20000 := by
  refine ⟨fun diffs thr => ?_, ?_, ?_, ?_⟩
  · simpa using foldl_count_eq thr diffs 0
  · norm_num [daily_threshold, cfg0]
  · norm_num [above_threshold_count, daily_threshold, cfg0]
  · norm_num [attrition_cost_impact, above_threshold_count, daily_threshold,
      cfg0]

/-- C6: `get_commute_emissions` sets the base emissions column to
`miles × CO2_per_mile` and every slot to
`miles × CO2_per_mile × emissions_factor(regime(miles, slot duration))`;
in the scenario (thresholds 33.554 / 55.923, 20 miles in 40 minutes, so
30 mph, Congested) each slot's emissions are 20 × 0.404 × 0.7 = 5.656 kg
and the base emissions 8.08 kg. -/
theorem emissions_regime_scaling :
    (∀ (cfg : ProjectCfg) (r : CommuteRec),
      (get_commute_emissions cfg r).emissions = r.miles * cfg.CO2_per_mile ∧
      (get_commute_emissions cfg r).slot_emissions
        = r.durations_in_traffic.map fun dur =>
            (get_traffic_regime cfg.traffic_regime_2 cfg.traffic_regime_3
                r.miles dur).map
              fun regime =>
                r.miles * cfg.CO2_per_mile *
                  get_traffic_emissions_factor cfg regime) ∧
    get_traffic_regime cfg0.traffic_regime_2 cfg0.traffic_regime_3 20 40
      = some 1 ∧
    slot_emission cfg0 20 40 = some 5.656 ∧
    (get_commute_emissions cfg0 rec0).emissions = 8.08 ∧
    (get_commute_emissions cfg0 rec0).slot_emissions
      = List.replicate 10 (some 5.656) := by
  refine ⟨fun cfg r => ⟨rfl, rfl⟩, ?_, ?_, ?_, ?_⟩
  · norm_num [get_traffic_regime, cfg0]
  · norm_num [slot_emission, get_traffic_regime, get_traffic_emissions_factor,
      cfg0]
  · norm_num [get_commute_emissions, rec0, cfg0]
  · norm_num [get_commute_emissions, rec0, cfg0, slot_emission,
      get_traffic_regime, get_traffic_emissions_factor, List.replicate]

/-- Helper: the classification fold accumulates exactly the hour-token and
minute-token sums into the `hours` / `minutes` entries. -/
theorem time_values_foldl (toks : List (List Char × List Char))
    (tv : TimeValues) :
    ((toks.foldl time_values_step tv).hours
        = tv.hours + ((toks.filter isHourTok).map fun t => pyInt t.1).sum) ∧
    ((toks.foldl time_values_step tv).minutes
        = tv.minutes
          + ((toks.filter isMinuteTok).map fun t => pyInt t.1).sum) := by
  induction toks generalizing tv with
  | nil => simp
  | cons t ts ih =>
    have ih1 := fun tv => (ih tv).1
    have ih2 := fun tv => (ih tv).2
    by_cases h1 : (strBegins t.2 "hour".data || t.2 == "hrs".data) = true
    · have hH : isHourTok t = true := h1
      have hM : isMinuteTok t = false := by simp [isMinuteTok, hH]
      simp [List.filter_cons, time_values_step, h1, hH, hM, ih1, ih2,
        Nat.add_assoc]
    · have hH : isHourTok t = false := by simpa [isHourTok] using h1
      by_cases h2 : strBegins t.2 "min".data = true
      · have hM : isMinuteTok t = true := by simp [isMinuteTok, hH, h2]
        simp [List.filter_cons, time_values_step, h1, h2, hH, hM, ih1, ih2,
          Nat.add_assoc]
      · have hM : isMinuteTok t = false := by simp [isMinuteTok, hH, h2]
        by_cases h3 : strBegins t.2 "sec".data = true
        · simp [List.filter_cons, time_values_step, h1, h2, h3, hH, hM,
            ih1, ih2]
        · simp [List.filter_cons, time_values_step, h1, h2, h3, hH, hM,
            ih1, ih2]

/-- C7 counterexample: the scan is case-insensitive, so `"1 Hour"` carries
one integer hour token, yet the total ignores it — the result is 0, not
the 60 the claim's summation over all hour tokens requires. -/
theorem convert_stringtime_capital_hour_counterexample :
    convert_stringtime_to_minutes "1 Hour".data ≠ 60 ∧
    findTimeTokens "1 Hour".data = [("1".data, "Hour".data)] := by
  constructor <;> decide

/-- C7 (amended): the total is 60 times the sum of the hour tokens whose
unit is spelled in the source's lowercase forms plus the sum of the
lowercase-spelled minute tokens; capitalized unit spellings and all
seconds tokens contribute nothing (`"1 hour 5 seconds"` yields 60,
`"1 Hour"` yields 0), and a tokenless string yields 0. -/
theorem convert_stringtime_sums_lowercase_tokens :
    (∀ s : List Char, convert_stringtime_to_minutes s
        = 60 * (((findTimeTokens s).filter isHourTok).map
                  fun t => pyInt t.1).sum
          + (((findTimeTokens s).filter isMinuteTok).map
                fun t => pyInt t.1).sum) ∧
    convert_stringtime_to_minutes "1 hour 5 seconds".data = 60 ∧
    convert_stringtime_to_minutes "1 Hour".data = 0 ∧
    (∀ s : List Char,
      findTimeTokens s = [] → convert_stringtime_to_minutes s = 0) := by
  refine ⟨?_, by decide, by decide, ?_⟩
  · intro s
    have h := time_values_foldl (findTimeTokens s) ⟨0, 0, 0⟩
    simp only [convert_stringtime_to_minutes]
    simp only [show (⟨0, 0, 0⟩ : TimeValues).hours = 0 from rfl,
      show (⟨0, 0, 0⟩ : TimeValues).minutes = 0 from rfl, Nat.zero_add] at h
    rw [h.1, h.2]
    omega
  · intro s h
    simp [convert_stringtime_to_minutes, h]

/-- C7 witness: a string with no `(integer)(unit)` token yields 0. -/
theorem convert_stringtime_sums_lowercase_tokens_witness :
    convert_stringtime_to_minutes "xyz".data = 0 :=
  convert_stringtime_sums_lowercase_tokens.2.2.2 "xyz".data (by decide)

/-- Helper: the regime selector by average speed is monotone in speed,
whatever the two thresholds are. -/
theorem regime_if_mono (r2 r3 v1 v2 : ℚ) (h : v1 ≤ v2) :
    (if v1 < r2 then (1:ℕ) else if v1 < r3 then 2 else 3)
      ≤ (if v2 < r2 then (1:ℕ) else if v2 < r3 then 2 else 3) := by
  split_ifs <;> first | omega | linarith

/-- Helper: with a nonzero duration the classifier returns the selector of
the average speed. -/
theorem get_traffic_regime_of_pos (r2 r3 d t : ℚ) (ht : t ≠ 0) :
    get_traffic_regime r2 r3 d t
      = some (if d / (t / 60) < r2 then 1
              else if d / (t / 60) < r3 then 2 else 3) := by
  simp only [get_traffic_regime, if_neg ht]
  split_ifs <;> rfl

/-- C8: for strictly positive durations and non-negative distances the
classifier is monotone — a larger distance at fixed duration, or a smaller
duration at fixed distance, never decreases the regime ordinal. -/
theorem regime_monotone :
    (∀ (r2 r3 t d1 d2 : ℚ), 0 < t → 0 ≤ d1 → d1 ≤ d2 →
      ∃ a b, get_traffic_regime r2 r3 d1 t = some a ∧
        get_traffic_regime r2 r3 d2 t = some b ∧ a ≤ b) ∧
    (∀ (r2 r3 d t1 t2 : ℚ), 0 < t2 → t2 ≤ t1 → 0 ≤ d →
      ∃ a b, get_traffic_regime r2 r3 d t1 = some a ∧
        get_traffic_regime r2 r3 d t2 = some b ∧ a ≤ b) := by
  constructor
  · intro r2 r3 t d1 d2 ht _hd1 h12
    refine ⟨_, _, get_traffic_regime_of_pos r2 r3 d1 t (ne_of_gt ht),
      get_traffic_regime_of_pos r2 r3 d2 t (ne_of_gt ht), ?_⟩
    apply regime_if_mono
    gcongr
  · intro r2 r3 d t1 t2 ht2 h21 hd
    have ht1 : 0 < t1 := lt_of_lt_of_le ht2 h21
    refine ⟨_, _, get_traffic_regime_of_pos r2 r3 d t1 (ne_of_gt ht1),
      get_traffic_regime_of_pos r2 r3 d t2 (ne_of_gt ht2), ?_⟩
    apply regime_if_mono
    rcases hd.eq_or_lt with h0 | hpos
    · rw [← h0]
      simp
    · gcongr

/-- C8 witness: at 40 minutes, 25 miles is classified no lower than
20 miles. -/
theorem regime_monotone_witness :
    ∃ a b, get_traffic_regime (33554/1000) (55923/1000) 20 40 = some a ∧
      get_traffic_regime (33554/1000) (55923/1000) 25 40 = some b ∧ a ≤ b :=
  regime_monotone.1 (33554/1000) (55923/1000) 40 20 25 (by norm_num)
    (by norm_num) (by norm_num)

/-- C9 (code bug): with the constructor's rate-limit state
(`sleep_time = 1/5` s, `last_call` set once, at construction), a batch of
two calls whose first call lasts 2 s has the second call start the very
instant the first ended: the spacing from the end of the previous call is
0, below the claimed `60/rate_limit` minimum.  `sleepif` never sleeps
again because no statement ever updates `last_call`. -/
theorem run_calls_no_spacing :
    run_calls init_sleep_time init_last_call 0 [2, 1/100]
      = [(1/5, 11/5), (11/5, 221/100)] ∧
    (11/5 : ℚ) - 11/5 < init_sleep_time := by
  constructor
  · norm_num [run_calls, sleepif_delay, timedelta_seconds, init_sleep_time,
      init_last_call, api_rate_limit]
  · norm_num [init_sleep_time, api_rate_limit]

/-- C10: an exception whose class name is not a key of
`google_api_exceptions` is classified non-recoverable
(`handle_GAPI_exception` returns `False`), and the fetch then propagates it
to the caller after a single provider call, with no retry attempt. -/
theorem unknown_exception_not_recoverable (name : String)
    (h : ∀ p ∈ google_api_exceptions, p.1 ≠ name) :
    handle_GAPI_exception name = false ∧
    ∀ (provider : ℕ → Except PyExc CommuteResp) (dest : ℚ × ℚ) (e : PyExc),
      provider 0 = .error e → pyExcName e = name →
      commute_slot_fetch provider dest = (.error e, 1) := by
  have hfilter : google_api_exceptions.filter (fun p => p.1 == name) = [] := by
    rw [List.filter_eq_nil_iff]
    intro p hp
    simpa using h p hp
  have hfalse : handle_GAPI_exception name = false := by
    rw [handle_GAPI_exception, hfilter]
    rfl
  refine ⟨hfalse, ?_⟩
  intro provider dest e he hname
  simp only [commute_slot_fetch, he, hname, hfalse]
  simp

/-- C10 witness: the map has no `TypeError` key, so a `TypeError` raised by
a provider call propagates unretried after one call. -/
theorem unknown_exception_not_recoverable_witness :
    handle_GAPI_exception "TypeError" = false ∧
    ∀ (provider : ℕ → Except PyExc CommuteResp) (dest : ℚ × ℚ) (e : PyExc),
      provider 0 = .error e → pyExcName e = "TypeError" →
      commute_slot_fetch provider dest = (.error e, 1) :=
  unknown_exception_not_recoverable "TypeError" (by decide)

end RelocationImpact
